import Mathlib

/-!
Shallow embedding of the GridUniverse environment
(src/core/envs/griduniverse_env.py) for verification of its specification.

States are Python integers, modelled as Int.  The NumPy reward matrix is a
List Int indexed with Python/NumPy semantics (negative indices wrap; an index
outside the interval from -len to len - 1 raises IndexError, modelled as
Option/Except failure).  Methods that can raise return Except String or
Option; random.choice is modelled by an explicit parameter giving the chosen
element.
-/

namespace GridUniverse

/-- Modelled from the spec: the module core/envs/config.py (the dictionary
config.default_rewards) is not present under src/; per spec section 4.3 the
constants are a configurable small-positive apple bonus, small-negative lemon
bonus, large-positive melon bonus, terminal goal reward, hazard (lava)
penalty and a step-cost (movement) constant.  They are carried as explicit
fields so that definitions stay parametric in the configuration. -/
structure RewardConfig where
  LEMON_REWARD : Int
  APPLE_REWARD : Int
  MELON_REWARD : Int
  LAVA_REWARD : Int
  TERMINAL_GOAL_REWARD : Int
  MOVEMENT_REWARD : Int
deriving DecidableEq

/-- Environment state: the attributes of GridUniverseEnv that the transition,
reward, reset and validation logic read or write. -/
structure Env where
  cfg : RewardConfig
  x_max : Nat
  y_max : Nat
  initial_states : List Int
  initial_state : Int
  current_state : Int
  previous_state : Int
  goal_states : List Int
  lava_states : List Int
  lemons : List Int
  apples : List Int
  melons : List Int
  current_lemons : List Int
  current_apples : List Int
  current_melons : List Int
  wall_indices : List Int
  reward_matrix : List Int
  last_n_states : List (Int × Int)
  done : Bool
deriving DecidableEq

/-- Number of grid states: world.size = x_max * y_max. -/
def size (e : Env) : Nat := e.x_max * e.y_max

/-- Python/NumPy sequence index normalization: a nonnegative index below the
length is used as is, a negative index from -length wraps by adding the
length, anything else raises IndexError (none). -/
def pyIndex (n : Nat) (i : Int) : Option Nat :=
  if 0 ≤ i ∧ i < (n : Int) then some i.toNat
  else if -(n : Int) ≤ i ∧ i < 0 then some (i + n).toNat
  else none

/-- Read matrix entry m[i] with NumPy index semantics (total; callers that
model a possible IndexError check pyIndex first). -/
def npGet (m : List Int) (i : Int) : Int :=
  match pyIndex m.length i with
  | some k => m.getD k 0
  | none => 0

/-- Assignment m[i] = v with NumPy index semantics; IndexError on bad index. -/
def npSet (m : List Int) (i : Int) (v : Int) : Except String (List Int) :=
  match pyIndex m.length i with
  | some k => .ok (m.set k v)
  | none => .error "IndexError"

/-- Augmented assignment m[i] += v with NumPy index semantics. -/
def npAdd (m : List Int) (i : Int) (v : Int) : Except String (List Int) :=
  match pyIndex m.length i with
  | some k => .ok (m.set k (m.getD k 0 + v))
  | none => .error "IndexError"

/-- One row y of the world array: the inner comprehension
(x, y) for x in range(x_max). -/
def mkRow (xm : Nat) (y : Nat) : List (Int × Int) :=
  (List.range xm).map fun (x : Nat) => ((x : Int), (y : Int))

/-- The world array of _generate_world: the comprehension
((x, y) for y in range(y_max) for x in range(x_max)), row major. -/
def mkWorld (xm ym : Nat) : List (Int × Int) :=
  (List.range ym).flatMap fun y => mkRow xm y

/-- The world array of this environment. -/
def world (e : Env) : List (Int × Int) := mkWorld e.x_max e.y_max

/-- Read world[s] (the (x, y) coordinates of state s) with NumPy index
semantics; the junk default (0, 0) is never reached for in-grid states. -/
def worldAt (e : Env) (s : Int) : Int × Int :=
  match pyIndex (world e).length s with
  | some k => (world e).getD k (0, 0)
  | none => (0, 0)

/-- The four per-action transition closures action_state_to_next_state,
indexed 0 = up, 1 = right, 2 = down, 3 = left; each checks its boundary via
world[s] before computing the arithmetic neighbour. -/
def action_state_to_next_state (e : Env) (i : Nat) (s : Int) : Int :=
  match i with
  | 0 => if (worldAt e s).2 > 0 then s - (e.x_max : Int) else s
  | 1 => if (worldAt e s).1 < (e.x_max : Int) - 1 then s + 1 else s
  | 2 => if (worldAt e s).2 < (e.y_max : Int) - 1 then s + (e.x_max : Int) else s
  | _ => if (worldAt e s).1 > 0 then s - 1 else s

/-- Wall test _is_wall: wall_grid[state] == 1, where _generate_walls sets
wall_grid[w] = 1 exactly for the members of wall_indices. -/
def is_wall (e : Env) (s : Int) : Bool := e.wall_indices.contains s

/-- Lava test is_lava: state in lava_states. -/
def is_lava (e : Env) (s : Int) : Bool := e.lava_states.contains s

/-- Goal test is_terminal_goal: state in goal_states. -/
def is_terminal_goal (e : Env) (s : Int) : Bool := e.goal_states.contains s

/-- Terminal test is_terminal: lava or goal. -/
def is_terminal (e : Env) (s : Int) : Bool := is_lava e s || is_terminal_goal e s

/-- reward_function(next_state, collect): reads reward_matrix[next_state]
(IndexError propagates as none); when collect is set and the state holds an
uncollected fruit, removes the fruit from the per-episode working list
(lemons checked first, then apples, then melons) and resets the matrix entry
to MOVEMENT_REWARD.  Returns the updated environment with the reward. -/
def reward_function (e : Env) (next_state : Int) (collect : Bool) :
    Option (Env × Int) :=
  match pyIndex e.reward_matrix.length next_state with
  | none => none
  | some k =>
    let reward := e.reward_matrix.getD k 0
    if collect then
      if next_state ∈ e.current_lemons ∨ next_state ∈ e.current_apples ∨
          next_state ∈ e.current_melons then
        let e1 :=
          if next_state ∈ e.current_lemons then
            { e with current_lemons := e.current_lemons.erase next_state }
          else if next_state ∈ e.current_apples then
            { e with current_apples := e.current_apples.erase next_state }
          else
            { e with current_melons := e.current_melons.erase next_state }
        some ({ e1 with reward_matrix :=
                  e1.reward_matrix.set k e.cfg.MOVEMENT_REWARD }, reward)
      else
        some (e, reward)
    else
      some (e, reward)

/-- look_step_ahead(state, action, care_about_terminal): if caring about
terminal and the state is terminal the agent stays in place; otherwise the
action closure (Python list indexing on a 4-element list, so negative
actions wrap and actions beyond the list raise IndexError) gives the raw
neighbour and a wall cancels the move.  The reward is obtained by the
mutating collect and done is whether the resulting state is terminal. -/
def look_step_ahead (e : Env) (state : Int) (action : Int)
    (care_about_terminal : Bool := true) : Option (Env × Int × Int × Bool) :=
  if care_about_terminal then
    if is_terminal e state then
      (reward_function e state true).map
        (fun p => (p.1, state, p.2, is_terminal p.1 state))
    else
      match pyIndex 4 action with
      | none => none
      | some i =>
        let n0 := action_state_to_next_state e i state
        let n := if is_wall e n0 then state else n0
        (reward_function e n true).map
          (fun p => (p.1, n, p.2, is_terminal p.1 n))
  else
    match pyIndex 4 action with
    | none => none
    | some i =>
      let n0 := action_state_to_next_state e i state
      let n := if is_wall e n0 then state else n0
      (reward_function e n true).map
        (fun p => (p.1, n, p.2, is_terminal p.1 n))

/-- The capacity of the visited-coordinates buffer
(num_previous_states_to_store). -/
def num_previous_states_to_store : Nat := 500

/-- One step of _step(action): previous_state takes the old current_state,
look_step_ahead moves from the current state (care_about_terminal true), the
new current state coordinates are appended to last_n_states and the oldest
entry is evicted when over capacity. -/
def step (e : Env) (action : Int) : Option (Env × Int × Int × Bool) :=
  let prev := e.current_state
  match look_step_ahead e e.current_state action true with
  | none => none
  | some (e1, ns, r, d) =>
    let hist0 := e1.last_n_states ++ [worldAt e1 ns]
    let hist := if hist0.length > num_previous_states_to_store
                then hist0.drop 1 else hist0
    some ({ e1 with previous_state := prev, current_state := ns,
                    done := d, last_n_states := hist }, ns, r, d)

/-- Guard helper: succeed when the condition holds, raise otherwise. -/
def ensure (b : Bool) (msg : String) : Except String Unit :=
  if b then .ok () else .error msg

/-- Fold of reward_matrix[state] += v over a list of states
(the fruit loops of _generate_reward_matrix). -/
def addStateRewards (m : List Int) (states : List Int) (v : Int) :
    Except String (List Int) :=
  states.foldlM (fun acc s => npAdd acc s v) m

/-- Fold of reward_matrix[state] = v over a list of states
(the terminal loops of _generate_reward_matrix and of the constructor). -/
def setStateRewards (m : List Int) (states : List Int) (v : Int) :
    Except String (List Int) :=
  states.foldlM (fun acc s => npSet acc s v) m

/-- _generate_reward_matrix: adds the apple, lemon and melon bonuses onto the
existing matrix entries of the current fruit states, then overwrites goal
states with TERMINAL_GOAL_REWARD and lava states with LAVA_REWARD.  Note it
mutates the matrix it finds; it does not first refill it with
MOVEMENT_REWARD. -/
def generate_reward_matrix (e : Env) : Except String Env := do
  let m1 ← addStateRewards e.reward_matrix e.current_apples e.cfg.APPLE_REWARD
  let m2 ← addStateRewards m1 e.current_lemons e.cfg.LEMON_REWARD
  let m3 ← addStateRewards m2 e.current_melons e.cfg.MELON_REWARD
  let m4 ← setStateRewards m3 e.goal_states e.cfg.TERMINAL_GOAL_REWARD
  let m5 ← setStateRewards m4 e.lava_states e.cfg.LAVA_REWARD
  .ok { e with reward_matrix := m5 }

/-- _reset: clears done, sets initial, current and previous state to the
randomly chosen start (the choice is the explicit parameter), clears the
visited history, restores the per-episode fruit lists from the templates and
calls _generate_reward_matrix on the existing matrix. -/
def reset (e : Env) (chosen : Int) : Except String Env :=
  generate_reward_matrix
    { e with done := false,
             previous_state := chosen, current_state := chosen,
             initial_state := chosen,
             last_n_states := [],
             current_lemons := e.lemons,
             current_apples := e.apples,
             current_melons := e.melons }

/-- _check_specific_collisions, in source order: duplicate checks for every
category (len(set(l)) != len(l) modelled by comparing with dedup), then the
intersections starts-walls, goals-walls, lava-walls, the fruit union
duplicate check and the fruit-walls intersection.  No goals-lava check is
performed. -/
def check_specific_collisions (e : Env) : Except String Unit := do
  let _ ← ensure (decide (e.current_apples.dedup.length = e.current_apples.length))
            "Duplicate apples not allowed"
  let _ ← ensure (decide (e.current_lemons.dedup.length = e.current_lemons.length))
            "Duplicate lemons not allowed"
  let _ ← ensure (decide (e.current_melons.dedup.length = e.current_melons.length))
            "Duplicate melons not allowed"
  let _ ← ensure (decide (e.wall_indices.dedup.length = e.wall_indices.length))
            "Duplicate walls not allowed"
  let _ ← ensure (decide (e.initial_states.dedup.length = e.initial_states.length))
            "Duplicate starting states not allowed"
  let _ ← ensure (decide (e.goal_states.dedup.length = e.goal_states.length))
            "Duplicate goal states not allowed"
  let _ ← ensure (decide (e.lava_states.dedup.length = e.lava_states.length))
            "Duplicate lava states not allowed"
  let _ ← ensure (decide (¬ (e.initial_states.inter e.wall_indices).length > 0))
            "Collision between starting states and wall indices. Not allowed."
  let _ ← ensure (decide (¬ (e.goal_states.inter e.wall_indices).length > 0))
            "Collision between goal state and wall indices. Not allowed."
  let _ ← ensure (decide (¬ (e.lava_states.inter e.wall_indices).length > 0))
            "Collision between goal state and wall indices. Not allowed."
  let cat := e.current_apples ++ e.current_lemons ++ e.current_melons
  let _ ← ensure (decide (¬ (cat.dedup.length ≠ cat.length ∧ cat.length > 0)))
            "Some fruit has been placed on top of another. This is not allowed."
  let _ ← ensure (decide (¬ (cat.dedup.inter e.wall_indices).length > 0))
            "Some fruit has been placed on top of a wall. This is not allowed."
  .ok ()

/-- The constructor of GridUniverseEnv, with grid_shape = (x_max, y_max),
initial_state already normalized to a list, the optional category lists, and
the outcome of random.choice(initial_states) passed explicitly as chosen.
Follows the source order: empty-choice IndexError, goal default (last state)
when absent or empty, lava default and bounds check, fruit defaults and
working copies, wall bounds check, matrix filled with MOVEMENT_REWARD,
_generate_reward_matrix, the hard-coded overwrites of goal entries with 10
and lava entries with -10 (re-raising IndexError), and finally
_check_specific_collisions. -/
def initEnv (cfg : RewardConfig) (grid_shape : Nat × Nat)
    (initial_state : List Int)
    (goal_states lava_states walls lemons melons apples : Option (List Int))
    (chosen : Int) : Except String Env := do
  let xm := grid_shape.1
  let ym := grid_shape.2
  let sz := xm * ym
  let _ ← ensure (initial_state ≠ []) "Cannot choose from an empty sequence"
  let gs := match goal_states with
            | none => [(sz : Int) - 1]
            | some g => if g.length = 0 then [(sz : Int) - 1] else g
  let ls := lava_states.getD []
  let _ ← ensure (ls.all fun t => decide (0 ≤ t ∧ t ≤ (sz : Int) - 1))
            "lava state is out of grid bounds"
  let lem := lemons.getD []
  let app := apples.getD []
  let mel := melons.getD []
  let ws := walls.getD []
  let _ ← ensure (ws.all fun w => decide (0 ≤ w ∧ w ≤ (sz : Int) - 1))
            "Wall state is out of grid bounds"
  let e0 : Env :=
    { cfg := cfg, x_max := xm, y_max := ym,
      initial_states := initial_state, initial_state := chosen,
      current_state := chosen, previous_state := chosen,
      goal_states := gs, lava_states := ls,
      lemons := lem, apples := app, melons := mel,
      current_lemons := lem, current_apples := app, current_melons := mel,
      wall_indices := ws,
      reward_matrix := List.replicate sz cfg.MOVEMENT_REWARD,
      last_n_states := [], done := false }
  let e1 ← generate_reward_matrix e0
  let m1 ← setStateRewards e1.reward_matrix e1.goal_states 10
  let m2 ← setStateRewards m1 e1.lava_states (-10)
  let e2 := { e1 with reward_matrix := m2 }
  let _ ← check_specific_collisions e2
  .ok e2

/-- Accumulator for _create_custom_world_from_text: the category lists that
the parsing loop appends to (walls_indices is a local in the source). -/
structure ParseAcc where
  goal_states : List Int
  initial_states : List Int
  lava_states : List Int
  lemons : List Int
  apples : List Int
  melons : List Int
  walls : List Int
deriving DecidableEq

/-- The empty accumulator (the source clears every list before parsing). -/
def emptyAcc : ParseAcc := ⟨[], [], [], [], [], [], []⟩

/-- One character of the parsing loop: dispatch on the legal alphabet,
appending curr_index to the matching category; any other character raises. -/
def parseChar (acc : ParseAcc) (idx : Nat) (c : Char) : Except String ParseAcc :=
  if c = 'G' then .ok { acc with goal_states := acc.goal_states ++ [(idx : Int)] }
  else if c = 'L' then .ok { acc with lava_states := acc.lava_states ++ [(idx : Int)] }
  else if c = 'l' then .ok { acc with lemons := acc.lemons ++ [(idx : Int)] }
  else if c = 'a' then .ok { acc with apples := acc.apples ++ [(idx : Int)] }
  else if c = 'm' then .ok { acc with melons := acc.melons ++ [(idx : Int)] }
  else if c = 'o' then .ok acc
  else if c = '#' then .ok { acc with walls := acc.walls ++ [(idx : Int)] }
  else if c = 'x' then .ok { acc with initial_states := acc.initial_states ++ [(idx : Int)] }
  else .error "Invalid Character"

/-- The inner loop over the characters of one row, threading curr_index. -/
def parseRow (acc : ParseAcc) (idx : Nat) : List Char → Except String (ParseAcc × Nat)
  | [] => .ok (acc, idx)
  | c :: cs => do
    let acc1 ← parseChar acc idx c
    parseRow acc1 (idx + 1) cs

/-- The outer loop over the rows: each row must have the width of the first
row, else the rectangle error is raised. -/
def parseLines (width : Nat) (acc : ParseAcc) (idx : Nat) :
    List (List Char) → Except String (ParseAcc × Nat)
  | [] => .ok (acc, idx)
  | l :: ls => do
    let _ ← ensure (l.length = width) "Input text file is not a rectangle"
    let p ← parseRow acc idx l
    parseLines width p.1 p.2 ls

/-- _create_custom_world_from_text on an already constructed environment:
clears the category lists, parses the rows (state ids assigned by the running
curr_index), requires at least one start and one goal, installs the new
dimensions, world, walls (bounds checked by _generate_walls) and a matrix
filled with MOVEMENT_REWARD, and calls reset (whose random.choice outcome is
the chosen parameter).  An empty line list raises (the source reads
text_world_lines[0]). -/
def create_custom_world_from_text (e : Env) (text_world_lines : List String)
    (chosen : Int) : Except String Env := do
  let _ ← ensure (text_world_lines ≠ []) "IndexError"
  let width := (text_world_lines.headD "").length
  let rows := text_world_lines.map String.toList
  let p ← parseLines width emptyAcc 0 rows
  let acc := p.1
  let _ ← ensure (acc.initial_states ≠ []) "No starting states set in text file."
  let _ ← ensure (acc.goal_states ≠ []) "No terminal goal states set in text file."
  let ym := text_world_lines.length
  let xm := width
  let _ ← ensure (acc.walls.all fun w => decide (0 ≤ w ∧ w ≤ ((xm * ym : Nat) : Int) - 1))
            "Wall state is out of grid bounds"
  let e1 : Env :=
    { e with y_max := ym, x_max := xm,
             goal_states := acc.goal_states,
             initial_states := acc.initial_states,
             lava_states := acc.lava_states,
             lemons := acc.lemons, apples := acc.apples, melons := acc.melons,
             wall_indices := acc.walls,
             reward_matrix := List.replicate (xm * ym) e.cfg.MOVEMENT_REWARD }
  reset e1 chosen

/-- Row-major read-order positions of a marker character within one row,
starting at state id idx: the specification-side description of the ids the
parser assigns. -/
def rowMarks (c : Char) (idx : Nat) : List Char → List Int
  | [] => []
  | ch :: cs => (if ch = c then [((idx : Nat) : Int)] else []) ++ rowMarks c (idx + 1) cs

/-- Row-major read-order positions of a marker character over all rows. -/
def gridMarks (c : Char) (idx : Nat) : List (List Char) → List Int
  | [] => []
  | r :: rs => rowMarks c idx r ++ gridMarks c (idx + r.length) rs

/-- The legal alphabet of the text layout format. -/
def legalChar (c : Char) : Bool :=
  c = 'G' || c = 'L' || c = 'l' || c = 'a' || c = 'm' || c = 'o' || c = '#' || c = 'x'

/-- A concrete reward configuration used for concrete evaluations.
Modelled from the spec: config.py is absent from src; magnitudes follow spec
section 4.3 (small positive apple, small negative lemon, large positive
melon, terminal rewards matching the hard-coded 10 and -10, step cost -1). -/
def specCfg : RewardConfig :=
  { LEMON_REWARD := -1, APPLE_REWARD := 1, MELON_REWARD := 5,
    LAVA_REWARD := -10, TERMINAL_GOAL_REWARD := 10, MOVEMENT_REWARD := -1 }

/-- Fallback environment value for Option and Except eliminations in closed
concrete statements (never actually reached). -/
def dummyEnv : Env :=
  { cfg := specCfg, x_max := 0, y_max := 0,
    initial_states := [], initial_state := 0,
    current_state := 0, previous_state := 0,
    goal_states := [], lava_states := [],
    lemons := [], apples := [], melons := [],
    current_lemons := [], current_apples := [], current_melons := [],
    wall_indices := [], reward_matrix := [],
    last_n_states := [], done := false }

/-- A concrete 2 by 2 environment in its terminated configuration: the agent
reached the default goal state 3 after visiting states 1 and 3, as produced
by two steps (right, down) from state 0. -/
def termEnv : Env :=
  { cfg := specCfg, x_max := 2, y_max := 2,
    initial_states := [0], initial_state := 0,
    current_state := 3, previous_state := 1,
    goal_states := [3], lava_states := [],
    lemons := [], apples := [], melons := [],
    current_lemons := [], current_apples := [], current_melons := [],
    wall_indices := [], reward_matrix := [-1, -1, -1, 10],
    last_n_states := [(1, 0), (1, 1)], done := true }

section Lemmas

/-- Eliminate a successful Except bind into its two successful stages. -/
theorem exceptBind_ok {α β : Type} {x : Except String α} {f : α → Except String β}
    {b : β} (h : x >>= f = Except.ok b) : ∃ a, x = Except.ok a ∧ f a = Except.ok b := by
  cases x with
  | error e => exact Except.noConfusion h
  | ok a => exact ⟨a, rfl, h⟩

/-- A successful ensure means its condition held. -/
theorem ensure_ok {b : Bool} {msg : String} {u : Unit}
    (h : ensure b msg = Except.ok u) : b = true := by
  by_contra hb
  simp [ensure, hb] at h

/-- Characterization of a successful Python index: the index lies in the
interval from -n to n - 1. -/
theorem pyIndex_some_bounds {n : Nat} {i : Int} {k : Nat}
    (h : pyIndex n i = some k) : -(n : Int) ≤ i ∧ i < (n : Int) := by
  unfold pyIndex at h
  split at h
  · omega
  · split at h
    · omega
    · exact Option.noConfusion h

/-- A nonnegative in-range index normalizes to itself. -/
theorem pyIndex_nonneg {n : Nat} {i : Int} (h0 : 0 ≤ i) (h1 : i < (n : Int)) :
    pyIndex n i = some i.toNat := by
  unfold pyIndex
  rw [if_pos ⟨h0, h1⟩]

/-- The collect side effect of reward_function only touches the working fruit
lists and the reward matrix: every other field, and the matrix length, is
preserved. -/
theorem reward_function_preserves {e : Env} {n : Int} {c : Bool} {e2 : Env} {r : Int}
    (h : reward_function e n c = some (e2, r)) :
    e2.cfg = e.cfg ∧ e2.x_max = e.x_max ∧ e2.y_max = e.y_max ∧
    e2.initial_states = e.initial_states ∧ e2.initial_state = e.initial_state ∧
    e2.current_state = e.current_state ∧ e2.previous_state = e.previous_state ∧
    e2.goal_states = e.goal_states ∧ e2.lava_states = e.lava_states ∧
    e2.lemons = e.lemons ∧ e2.apples = e.apples ∧ e2.melons = e.melons ∧
    e2.wall_indices = e.wall_indices ∧ e2.last_n_states = e.last_n_states ∧
    e2.done = e.done ∧ e2.reward_matrix.length = e.reward_matrix.length := by
  rcases hp : pyIndex e.reward_matrix.length n with _ | k
  · simp [reward_function, hp] at h
  · cases c <;>
      by_cases h1 : n ∈ e.current_lemons <;>
      by_cases h2 : n ∈ e.current_apples <;>
      by_cases h3 : n ∈ e.current_melons <;>
      simp [reward_function, hp, h1, h2, h3] at h <;>
      (obtain ⟨ha, -⟩ := h; subst ha; simp [List.length_set])

/-- reward_function succeeds whenever the queried state is a valid
nonnegative matrix index. -/
theorem reward_function_some (e : Env) (n : Int) (c : Bool)
    (h0 : 0 ≤ n) (h1 : n < (e.reward_matrix.length : Int)) :
    ∃ e2 r, reward_function e n c = some (e2, r) := by
  have hp := pyIndex_nonneg h0 h1
  cases c <;>
    by_cases hl : n ∈ e.current_lemons <;>
    by_cases ha : n ∈ e.current_apples <;>
    by_cases hm : n ∈ e.current_melons <;>
    simp [reward_function, hp, hl, ha, hm]

/-- A successful _check_specific_collisions run certifies the wall
disjointness properties it tests. -/
theorem check_collisions_ok {e : Env} {u : Unit}
    (h : check_specific_collisions e = .ok u) :
    e.initial_states.inter e.wall_indices = [] ∧
    e.goal_states.inter e.wall_indices = [] ∧
    e.lava_states.inter e.wall_indices = [] ∧
    ((e.current_apples ++ e.current_lemons ++ e.current_melons).dedup.inter
      e.wall_indices) = [] := by
  simp only [check_specific_collisions] at h
  obtain ⟨_, -, h⟩ := exceptBind_ok h
  obtain ⟨_, -, h⟩ := exceptBind_ok h
  obtain ⟨_, -, h⟩ := exceptBind_ok h
  obtain ⟨_, -, h⟩ := exceptBind_ok h
  obtain ⟨_, -, h⟩ := exceptBind_ok h
  obtain ⟨_, -, h⟩ := exceptBind_ok h
  obtain ⟨_, -, h⟩ := exceptBind_ok h
  obtain ⟨_, h8, h⟩ := exceptBind_ok h
  obtain ⟨_, h9, h⟩ := exceptBind_ok h
  obtain ⟨_, h10, h⟩ := exceptBind_ok h
  obtain ⟨_, -, h⟩ := exceptBind_ok h
  obtain ⟨_, h12, -⟩ := exceptBind_ok h
  have g8 := of_decide_eq_true (ensure_ok h8)
  have g9 := of_decide_eq_true (ensure_ok h9)
  have g10 := of_decide_eq_true (ensure_ok h10)
  have g12 := of_decide_eq_true (ensure_ok h12)
  exact ⟨List.length_eq_zero.mp (by omega), List.length_eq_zero.mp (by omega),
    List.length_eq_zero.mp (by omega), List.length_eq_zero.mp (by omega)⟩

/-- A successful NumPy augmented assignment preserves the length and
certifies the index bounds. -/
theorem npAdd_ok {m m' : List Int} {i v : Int} (h : npAdd m i v = .ok m') :
    m'.length = m.length ∧ -(m.length : Int) ≤ i ∧ i < (m.length : Int) := by
  unfold npAdd at h
  split at h
  · rename_i k hk
    injection h with h1
    subst h1
    exact ⟨List.length_set .., pyIndex_some_bounds hk⟩
  · exact Except.noConfusion h

/-- A successful NumPy assignment preserves the length and certifies the
index bounds. -/
theorem npSet_ok {m m' : List Int} {i v : Int} (h : npSet m i v = .ok m') :
    m'.length = m.length ∧ -(m.length : Int) ≤ i ∧ i < (m.length : Int) := by
  unfold npSet at h
  split at h
  · rename_i k hk
    injection h with h1
    subst h1
    exact ⟨List.length_set .., pyIndex_some_bounds hk⟩
  · exact Except.noConfusion h

/-- A successful fruit-bonus fold preserves the matrix length and certifies
that every touched state is a valid NumPy index. -/
theorem addStateRewards_ok {l : List Int} :
    ∀ {m m' : List Int} {v : Int}, addStateRewards m l v = .ok m' →
    m'.length = m.length ∧
    ∀ x ∈ l, -(m.length : Int) ≤ x ∧ x < (m.length : Int) := by
  induction l with
  | nil =>
    intro m m' v h
    simp only [addStateRewards, List.foldlM_nil] at h
    injection h with h1
    subst h1
    simp
  | cons x xs ih =>
    intro m m' v h
    simp only [addStateRewards, List.foldlM_cons] at h
    obtain ⟨m1, h1, h2⟩ := exceptBind_ok h
    obtain ⟨hlen1, hb1⟩ := npAdd_ok h1
    obtain ⟨hlen2, hb2⟩ := ih h2
    refine ⟨hlen2.trans hlen1, ?_⟩
    intro y hy
    rcases List.mem_cons.mp hy with rfl | hy
    · exact hb1
    · have := hb2 y hy
      omega

/-- A successful terminal-overwrite fold preserves the matrix length and
certifies that every touched state is a valid NumPy index. -/
theorem setStateRewards_ok {l : List Int} :
    ∀ {m m' : List Int} {v : Int}, setStateRewards m l v = .ok m' →
    m'.length = m.length ∧
    ∀ x ∈ l, -(m.length : Int) ≤ x ∧ x < (m.length : Int) := by
  induction l with
  | nil =>
    intro m m' v h
    simp only [setStateRewards, List.foldlM_nil] at h
    injection h with h1
    subst h1
    simp
  | cons x xs ih =>
    intro m m' v h
    simp only [setStateRewards, List.foldlM_cons] at h
    obtain ⟨m1, h1, h2⟩ := exceptBind_ok h
    obtain ⟨hlen1, hb1⟩ := npSet_ok h1
    obtain ⟨hlen2, hb2⟩ := ih h2
    refine ⟨hlen2.trans hlen1, ?_⟩
    intro y hy
    rcases List.mem_cons.mp hy with rfl | hy
    · exact hb1
    · have := hb2 y hy
      omega

/-- A successful _generate_reward_matrix only replaces the matrix (keeping
its length) and certifies the NumPy index bounds of every fruit, goal and
lava state it wrote to. -/
theorem generate_reward_matrix_ok {e e1 : Env}
    (h : generate_reward_matrix e = .ok e1) :
    (∃ m, e1 = { e with reward_matrix := m } ∧
      m.length = e.reward_matrix.length) ∧
    (∀ x ∈ e.current_apples,
      -(e.reward_matrix.length : Int) ≤ x ∧ x < (e.reward_matrix.length : Int)) ∧
    (∀ x ∈ e.current_lemons,
      -(e.reward_matrix.length : Int) ≤ x ∧ x < (e.reward_matrix.length : Int)) ∧
    (∀ x ∈ e.current_melons,
      -(e.reward_matrix.length : Int) ≤ x ∧ x < (e.reward_matrix.length : Int)) ∧
    (∀ x ∈ e.goal_states,
      -(e.reward_matrix.length : Int) ≤ x ∧ x < (e.reward_matrix.length : Int)) ∧
    (∀ x ∈ e.lava_states,
      -(e.reward_matrix.length : Int) ≤ x ∧ x < (e.reward_matrix.length : Int)) := by
  simp only [generate_reward_matrix] at h
  obtain ⟨m1, h1, h⟩ := exceptBind_ok h
  obtain ⟨m2, h2, h⟩ := exceptBind_ok h
  obtain ⟨m3, h3, h⟩ := exceptBind_ok h
  obtain ⟨m4, h4, h⟩ := exceptBind_ok h
  obtain ⟨m5, h5, h⟩ := exceptBind_ok h
  injection h with he
  subst he
  obtain ⟨l1, b1⟩ := addStateRewards_ok h1
  obtain ⟨l2, b2⟩ := addStateRewards_ok h2
  obtain ⟨l3, b3⟩ := addStateRewards_ok h3
  obtain ⟨l4, b4⟩ := setStateRewards_ok h4
  obtain ⟨l5, b5⟩ := setStateRewards_ok h5
  refine ⟨⟨m5, rfl, by omega⟩, b1, ?_, ?_, ?_, ?_⟩
  · intro x hx
    have := b2 x hx
    omega
  · intro x hx
    have := b3 x hx
    omega
  · intro x hx
    have := b4 x hx
    omega
  · intro x hx
    have := b5 x hx
    omega

/-- Length of one generated world row. -/
theorem length_mkRow (xm y : Nat) : (mkRow xm y).length = xm := by
  rw [mkRow, List.length_map, List.length_range]

/-- The world generator appends one row per outer iteration. -/
theorem mkWorld_succ (xm ym : Nat) :
    mkWorld xm (ym + 1) = mkWorld xm ym ++ mkRow xm ym := by
  simp [mkWorld, List.range_succ]

/-- The generated world has one entry per state. -/
theorem length_mkWorld (xm ym : Nat) : (mkWorld xm ym).length = xm * ym := by
  induction ym with
  | zero => simp [mkWorld]
  | succ n ih =>
    rw [mkWorld_succ, List.length_append, ih, length_mkRow]
    ring

/-- Entry j of row y is the coordinate pair (j, y). -/
theorem mkRow_getD (xm y j : Nat) (h : j < xm) :
    (mkRow xm y).getD j (0, 0) = ((j : Int), (y : Int)) := by
  rw [mkRow, List.getD_eq_getElem?_getD, List.getElem?_map, List.getElem?_range h]
  rfl

/-- The world entry of state k is its column and row: (k mod width,
k div width). -/
theorem mkWorld_getD (xm : Nat) : ∀ (ym k : Nat), k < xm * ym →
    (mkWorld xm ym).getD k (0, 0) =
      (((k % xm : Nat) : Int), ((k / xm : Nat) : Int)) := by
  intro ym
  induction ym with
  | zero =>
    intro k hk
    simp [Nat.mul_zero] at hk
  | succ n ih =>
    intro k hk
    rw [mkWorld_succ]
    by_cases hlt : k < xm * n
    · rw [List.getD_append _ _ _ _ (by rw [length_mkWorld]; exact hlt)]
      exact ih k hlt
    · have hge : xm * n ≤ k := Nat.le_of_not_lt hlt
      rw [List.getD_append_right _ _ _ _ (by rw [length_mkWorld]; exact hge)]
      rw [length_mkWorld]
      have hj : k - xm * n < xm := by
        rw [Nat.mul_succ] at hk
        omega
      rw [mkRow_getD _ _ _ hj]
      have hk2 : k = (k - xm * n) + xm * n := by omega
      have hmod : k % xm = k - xm * n := by
        conv_lhs => rw [hk2]
        rw [Nat.add_mul_mod_self_left, Nat.mod_eq_of_lt hj]
      have hdiv : k / xm = n := by
        have hxm : 0 < xm := by
          rcases Nat.eq_zero_or_pos xm with h0 | h0
          · subst h0
            simp at hk
          · exact h0
        conv_lhs => rw [hk2]
        rw [Nat.add_mul_div_left _ _ hxm, Nat.div_eq_of_lt hj]
        omega
      rw [hmod, hdiv]

/-- For an in-grid state, world[s] is the pair (s mod width, s div width). -/
theorem worldAt_eq (e : Env) (s : Int) (h0 : 0 ≤ s) (h1 : s < (size e : Int)) :
    worldAt e s =
      (((s.toNat % e.x_max : Nat) : Int), ((s.toNat / e.x_max : Nat) : Int)) := by
  have hlen : (world e).length = size e := by
    rw [world, length_mkWorld]
    rfl
  have hp : pyIndex (world e).length s = some s.toNat := by
    rw [hlen]
    exact pyIndex_nonneg h0 h1
  have hnlt : s.toNat < e.x_max * e.y_max := by
    have := (Int.toNat_lt h0).mpr h1
    simpa [size] using this
  simp only [worldAt, hp]
  exact mkWorld_getD _ _ _ hnlt

/-- Every action closure keeps an in-grid state in the grid: the boundary
conditions read off world[s] guard each arithmetic neighbour. -/
theorem action_state_bounds (e : Env) (i : Nat) (s : Int)
    (h0 : 0 ≤ s) (h1 : s < (size e : Int)) :
    0 ≤ action_state_to_next_state e i s ∧
      action_state_to_next_state e i s < (size e : Int) := by
  have hw := worldAt_eq e s h0 h1
  have hns : ((s.toNat : Nat) : Int) = s := Int.toNat_of_nonneg h0
  have hnlt : s.toNat < e.x_max * e.y_max := by
    have := (Int.toNat_lt h0).mpr h1
    simpa [size] using this
  have hxm : 0 < e.x_max := by
    rcases Nat.eq_zero_or_pos e.x_max with hz | hz
    · rw [hz] at hnlt
      simp at hnlt
    · exact hz
  have hdm := Nat.div_add_mod s.toNat e.x_max
  have hmlt : s.toNat % e.x_max < e.x_max := Nat.mod_lt _ hxm
  have hdlt : s.toNat / e.x_max < e.y_max := by
    rw [Nat.div_lt_iff_lt_mul hxm]
    rwa [Nat.mul_comm] at hnlt
  have hsz : size e = e.x_max * e.y_max := rfl
  rcases i with _ | _ | _ | i
  · -- up
    simp only [action_state_to_next_state, hw]
    split_ifs with hc
    · have hq : 0 < s.toNat / e.x_max := by exact_mod_cast hc
      have hxle : e.x_max ≤ s.toNat := by
        by_contra hlt2
        rw [Nat.div_eq_of_lt (Nat.lt_of_not_le hlt2)] at hq
        exact Nat.lt_irrefl 0 hq
      omega
    · exact ⟨h0, h1⟩
  · -- right
    simp only [action_state_to_next_state, hw]
    split_ifs with hc
    · have hr1 : s.toNat % e.x_max + 1 < e.x_max := by omega
      have key : s.toNat + 1 < e.x_max * e.y_max := by
        calc s.toNat + 1
            = e.x_max * (s.toNat / e.x_max) + (s.toNat % e.x_max + 1) := by omega
          _ < e.x_max * (s.toNat / e.x_max) + e.x_max := by omega
          _ = e.x_max * (s.toNat / e.x_max + 1) := by ring
          _ ≤ e.x_max * e.y_max := Nat.mul_le_mul_left _ (by omega)
      rw [hsz]
      omega
    · exact ⟨h0, h1⟩
  · -- down
    simp only [action_state_to_next_state, hw]
    split_ifs with hc
    · have hq1 : s.toNat / e.x_max + 1 < e.y_max := by omega
      have key : s.toNat + e.x_max < e.x_max * e.y_max := by
        calc s.toNat + e.x_max
            = e.x_max * (s.toNat / e.x_max + 1) + s.toNat % e.x_max := by
              rw [Nat.mul_add, Nat.mul_one]
              omega
          _ < e.x_max * (s.toNat / e.x_max + 1) + e.x_max := by omega
          _ = e.x_max * (s.toNat / e.x_max + 2) := by ring
          _ ≤ e.x_max * e.y_max := Nat.mul_le_mul_left _ (by omega)
      rw [hsz]
      omega
    · exact ⟨h0, h1⟩
  · -- left (and every index beyond three)
    simp only [action_state_to_next_state, hw]
    split_ifs with hc
    · have hr0 : 0 < s.toNat % e.x_max := by exact_mod_cast hc
      have := Nat.mod_le s.toNat e.x_max
      omega
    · exact ⟨h0, h1⟩

/-- Terminality only depends on the goal and lava lists. -/
theorem is_terminal_congr {e2 e : Env} (s : Int)
    (hg : e2.goal_states = e.goal_states) (hl : e2.lava_states = e.lava_states) :
    is_terminal e2 s = is_terminal e s := by
  simp [is_terminal, is_lava, is_terminal_goal, hg, hl]

/-- One parsing step accepts exactly the legal alphabet and appends the
current index to the goal and start lists exactly on their markers. -/
theorem parseChar_ok {acc : ParseAcc} {idx : Nat} {c : Char} {acc1 : ParseAcc}
    (h : parseChar acc idx c = .ok acc1) :
    legalChar c = true ∧
    acc1.goal_states = acc.goal_states ++
      (if c = 'G' then [(idx : Int)] else []) ∧
    acc1.initial_states = acc.initial_states ++
      (if c = 'x' then [(idx : Int)] else []) := by
  unfold parseChar at h
  split_ifs at h with h1 h2 h3 h4 h5 h6 h7 h8 <;>
    first
    | exact Except.noConfusion h
    | (injection h with h9; subst h9;
       simp_all [legalChar])

/-- The row parsing loop advances curr_index by the row length, accepts
exactly rows of legal characters, and appends the row-major marker
positions. -/
theorem parseRow_ok {cs : List Char} :
    ∀ {acc : ParseAcc} {idx : Nat} {p : ParseAcc × Nat},
    parseRow acc idx cs = .ok p →
    (∀ c ∈ cs, legalChar c = true) ∧ p.2 = idx + cs.length ∧
    p.1.goal_states = acc.goal_states ++ rowMarks 'G' idx cs ∧
    p.1.initial_states = acc.initial_states ++ rowMarks 'x' idx cs := by
  induction cs with
  | nil =>
    intro acc idx p h
    simp only [parseRow] at h
    injection h with h1
    subst h1
    simp [rowMarks]
  | cons c cs ih =>
    intro acc idx p h
    simp only [parseRow] at h
    obtain ⟨acc1, h1, h2⟩ := exceptBind_ok h
    obtain ⟨hleg, hgoal1, hinit1⟩ := parseChar_ok h1
    obtain ⟨hleg2, hlen, hgoal2, hinit2⟩ := ih h2
    refine ⟨?_, ?_, ?_, ?_⟩
    · intro x hx
      rcases List.mem_cons.mp hx with rfl | hx
      · exact hleg
      · exact hleg2 x hx
    · rw [hlen, List.length_cons]
      omega
    · rw [hgoal2, hgoal1, rowMarks, List.append_assoc]
    · rw [hinit2, hinit1, rowMarks, List.append_assoc]

/-- The line parsing loop accepts exactly equal-width rows of legal
characters and appends the row-major marker positions of the whole grid. -/
theorem parseLines_ok {rs : List (List Char)} {width : Nat} :
    ∀ {acc : ParseAcc} {idx : Nat} {p : ParseAcc × Nat},
    parseLines width acc idx rs = .ok p →
    (∀ l ∈ rs, l.length = width) ∧
    (∀ l ∈ rs, ∀ c ∈ l, legalChar c = true) ∧
    p.1.goal_states = acc.goal_states ++ gridMarks 'G' idx rs ∧
    p.1.initial_states = acc.initial_states ++ gridMarks 'x' idx rs := by
  induction rs with
  | nil =>
    intro acc idx p h
    simp only [parseLines] at h
    injection h with h1
    subst h1
    simp [gridMarks]
  | cons l ls ih =>
    intro acc idx p h
    simp only [parseLines] at h
    obtain ⟨_, hwid, h⟩ := exceptBind_ok h
    obtain ⟨p1, hrow, h⟩ := exceptBind_ok h
    have hwid' : l.length = width := of_decide_eq_true (ensure_ok hwid)
    obtain ⟨hleg1, hidx1, hgoal1, hinit1⟩ := parseRow_ok hrow
    obtain ⟨hwid2, hleg2, hgoal2, hinit2⟩ := ih h
    refine ⟨?_, ?_, ?_, ?_⟩
    · intro x hx
      rcases List.mem_cons.mp hx with rfl | hx
      · exact hwid'
      · exact hwid2 x hx
    · intro x hx
      rcases List.mem_cons.mp hx with rfl | hx
      · exact hleg1
      · exact hleg2 x hx
    · rw [hgoal2, hgoal1, gridMarks, hidx1, List.append_assoc]
    · rw [hinit2, hinit1, gridMarks, hidx1, List.append_assoc]

end Lemmas

section Claims

/-- C1: for every in-grid non-wall state and every action in the four
discrete directions (and either care_about_terminal mode), whenever
look_step_ahead returns, the returned next state is inside [0, size) and is
not a wall state. -/
theorem c1_look_step_ahead_safe (e : Env) (s a : Int) (care : Bool)
    (hs : 0 ≤ s ∧ s < (size e : Int)) (hw : is_wall e s = false)
    (ha : 0 ≤ a ∧ a < 4) (e2 : Env) (n r : Int) (d : Bool)
    (h : look_step_ahead e s a care = some (e2, n, r, d)) :
    (0 ≤ n ∧ n < (size e : Int)) ∧ is_wall e n = false := by
  have hp : pyIndex 4 a = some a.toNat :=
    pyIndex_nonneg ha.1 (by exact_mod_cast ha.2)
  have main : ∀ p : Env × Int,
      reward_function e (if is_wall e (action_state_to_next_state e a.toNat s)
        then s else action_state_to_next_state e a.toNat s) true = some p →
      (p.1, (if is_wall e (action_state_to_next_state e a.toNat s)
        then s else action_state_to_next_state e a.toNat s), p.2,
        is_terminal p.1 (if is_wall e (action_state_to_next_state e a.toNat s)
          then s else action_state_to_next_state e a.toNat s)) = (e2, n, r, d) →
      (0 ≤ n ∧ n < (size e : Int)) ∧ is_wall e n = false := by
    intro p _ heq
    simp only [Prod.mk.injEq] at heq
    obtain ⟨-, hn, -, -⟩ := heq
    subst hn
    by_cases hwal : is_wall e (action_state_to_next_state e a.toNat s) = true
    · simp only [hwal, if_true]
      exact ⟨hs, hw⟩
    · have hwal' : is_wall e (action_state_to_next_state e a.toNat s) = false :=
        Bool.not_eq_true _ ▸ (by simpa using hwal)
      simp only [hwal', Bool.false_eq_true, if_false]
      exact ⟨action_state_bounds e a.toNat s hs.1 hs.2, trivial⟩
  cases care with
  | true =>
    by_cases hterm : is_terminal e s = true
    · simp only [look_step_ahead, if_pos rfl, hterm, if_true] at h
      obtain ⟨p, -, heq⟩ := Option.map_eq_some'.mp h
      simp only [Prod.mk.injEq] at heq
      obtain ⟨-, hn, -, -⟩ := heq
      subst hn
      exact ⟨hs, hw⟩
    · simp only [look_step_ahead, if_pos rfl, hterm, Bool.false_eq_true,
        if_false, hp] at h
      obtain ⟨p, hp2, heq⟩ := Option.map_eq_some'.mp h
      exact main p hp2 heq
  | false =>
    simp only [look_step_ahead, Bool.false_eq_true, if_false, hp] at h
    obtain ⟨p, hp2, heq⟩ := Option.map_eq_some'.mp h
    exact main p hp2 heq

/-- Witness for C1: on the 2 by 2 environment, stepping right from state 0
lands on state 1, which is in bounds and not a wall. -/
theorem c1_look_step_ahead_safe_witness :
    ((0 ≤ (0 : Int) ∧ (0 : Int) < (size termEnv : Int)) ∧
      is_wall termEnv 0 = false ∧ (0 ≤ (1 : Int) ∧ (1 : Int) < 4) ∧
      look_step_ahead termEnv 0 1 true = some (termEnv, 1, -1, false)) ∧
    ((0 ≤ (1 : Int) ∧ (1 : Int) < (size termEnv : Int)) ∧
      is_wall termEnv 1 = false) :=
  ⟨⟨⟨by decide, by decide⟩, by decide, ⟨by decide, by decide⟩, by decide⟩,
   c1_look_step_ahead_safe termEnv 0 1 true ⟨by decide, by decide⟩ (by decide)
     ⟨by decide, by decide⟩ termEnv 1 (-1) false (by decide)⟩

/-- C2: terminal states are absorbing: from a goal or lava state s (a valid
matrix index), look_step_ahead with care_about_terminal true returns the same
state s with done true, for every action. -/
theorem c2_terminal_absorbing (e : Env) (s a : Int)
    (hterm : is_terminal e s = true)
    (hm : 0 ≤ s ∧ s < (e.reward_matrix.length : Int)) :
    ∃ e2 r, look_step_ahead e s a true = some (e2, s, r, true) := by
  obtain ⟨e2, r, hr⟩ := reward_function_some e s true hm.1 hm.2
  refine ⟨e2, r, ?_⟩
  have hpres := reward_function_preserves hr
  have hterm2 : is_terminal e2 s = true := by
    rw [is_terminal_congr s hpres.2.2.2.2.2.2.2.1 hpres.2.2.2.2.2.2.2.2.1]
    exact hterm
  simp [look_step_ahead, hterm, hr, hterm2]

/-- Witness for C2 at a concrete terminated environment. -/
theorem c2_terminal_absorbing_witness :
    is_terminal termEnv 3 = true ∧
    ∃ e2 r, look_step_ahead termEnv 3 0 true = some (e2, 3, r, true) :=
  ⟨by decide, c2_terminal_absorbing termEnv 3 0 (by decide) (by decide)⟩

/-- C3 (code bug): on a 2 by 2 grid with an apple at state 1 that is never
collected, the reward matrix right after construction is [-1, 0, -1, 10],
but after one reset it is [-1, 1, -1, 10]: _reset calls
_generate_reward_matrix without first refilling the matrix with the step
cost, so the uncollected apple bonus is added a second time, and the matrix
no longer equals the one freshly rebuilt from the entity registry
(third conjunct). -/
theorem c3_reset_accumulates_fruit_bonus :
    (initEnv specCfg (2, 2) [0] none none none none none (some [1]) 0).toOption.map
      (fun e => e.reward_matrix) = some [-1, 0, -1, 10] ∧
    ((initEnv specCfg (2, 2) [0] none none none none none (some [1]) 0).bind
      (fun e => reset e 0)).toOption.map (fun e => e.reward_matrix) =
        some [-1, 1, -1, 10] ∧
    ((initEnv specCfg (2, 2) [0] none none none none none (some [1]) 0).bind
      (fun e => generate_reward_matrix
        { e with reward_matrix :=
            List.replicate (size e) e.cfg.MOVEMENT_REWARD })).toOption.map
      (fun e => e.reward_matrix) = some [-1, 0, -1, 10] := by
  refine ⟨by decide, by decide, by decide⟩

/-- C4 (code bug): in the episode begun by the first reset (no fruit was
collected before it), the first transition onto the apple at state 1 yields
reward 1 = step_cost + 2 * apple_bonus instead of the claimed
step_cost + apple_bonus = 0, because _reset accumulated the bonus. -/
theorem c4_first_collection_after_reset_overpays :
    ((initEnv specCfg (2, 2) [0] none none none none none (some [1]) 0).bind
      (fun e => reset e 0)).toOption.bind
      (fun e => (step e 1).map (fun p => p.2.2.1)) = some 1 ∧
    specCfg.MOVEMENT_REWARD + specCfg.APPLE_REWARD = 0 ∧ (1 : Int) ≠ 0 := by
  refine ⟨by decide, by decide, by decide⟩

/-- C5 counterexample: constructing with a goal state id equal to a lava
state id does not raise: _check_specific_collisions has no goals-lava
intersection check, so the claim that such a construction raises is false. -/
theorem c5_goal_equals_lava_accepted :
    (initEnv specCfg (2, 2) [0] (some [3]) (some [3]) none none none none
      0).toOption.isSome = true := by decide

/-- C5 amended: a successfully constructed environment has its wall set
disjoint from the start, goal, lava and fruit sets (so each of those
collisions raises), while the goal and lava sets may intersect. -/
theorem c5_success_implies_wall_disjointness (cfg : RewardConfig)
    (gs : Nat × Nat) (il : List Int) (g l w le me ap : Option (List Int))
    (ch : Int) (e : Env)
    (h : initEnv cfg gs il g l w le me ap ch = .ok e) :
    e.initial_states.inter e.wall_indices = [] ∧
    e.goal_states.inter e.wall_indices = [] ∧
    e.lava_states.inter e.wall_indices = [] ∧
    ((e.current_apples ++ e.current_lemons ++ e.current_melons).dedup.inter
      e.wall_indices) = [] := by
  simp only [initEnv] at h
  obtain ⟨_, -, h⟩ := exceptBind_ok h
  obtain ⟨_, -, h⟩ := exceptBind_ok h
  obtain ⟨_, -, h⟩ := exceptBind_ok h
  obtain ⟨e1, -, h⟩ := exceptBind_ok h
  obtain ⟨m1, -, h⟩ := exceptBind_ok h
  obtain ⟨m2, -, h⟩ := exceptBind_ok h
  obtain ⟨u4, hc, h⟩ := exceptBind_ok h
  injection h with he
  subst he
  exact check_collisions_ok hc

/-- Witness for the amended C5 at a concrete successful construction. -/
theorem c5_success_implies_wall_disjointness_witness :
    ((initEnv specCfg (2, 2) [0] none none none none none none
        0).toOption.getD dummyEnv).initial_states.inter
      ((initEnv specCfg (2, 2) [0] none none none none none none
        0).toOption.getD dummyEnv).wall_indices = [] ∧
    ((initEnv specCfg (2, 2) [0] none none none none none none
        0).toOption.getD dummyEnv).goal_states.inter
      ((initEnv specCfg (2, 2) [0] none none none none none none
        0).toOption.getD dummyEnv).wall_indices = [] ∧
    ((initEnv specCfg (2, 2) [0] none none none none none none
        0).toOption.getD dummyEnv).lava_states.inter
      ((initEnv specCfg (2, 2) [0] none none none none none none
        0).toOption.getD dummyEnv).wall_indices = [] ∧
    ((((initEnv specCfg (2, 2) [0] none none none none none none
        0).toOption.getD dummyEnv).current_apples ++
      ((initEnv specCfg (2, 2) [0] none none none none none none
        0).toOption.getD dummyEnv).current_lemons ++
      ((initEnv specCfg (2, 2) [0] none none none none none none
        0).toOption.getD dummyEnv).current_melons).dedup.inter
      ((initEnv specCfg (2, 2) [0] none none none none none none
        0).toOption.getD dummyEnv).wall_indices) = [] :=
  c5_success_implies_wall_disjointness specCfg (2, 2) [0]
    none none none none none none 0
    ((initEnv specCfg (2, 2) [0] none none none none none none
      0).toOption.getD dummyEnv) (by rfl)

/-- C6 amended: only wall and lava ids are checked against the interval from
0 to size - 1 at construction; goal and fruit ids fail only through the
NumPy writes, i.e. when outside the interval from -size to size - 1 (negative
in-range ids wrap silently and are accepted), and start state ids are never
bounds checked: a successful construction certifies wall and lava ids in
[0, size) and goal and fruit ids in [-size, size), but nothing about the
start states. -/
theorem c6_success_bounds (cfg : RewardConfig) (gs : Nat × Nat)
    (il : List Int) (g l w le me ap : Option (List Int)) (ch : Int) (e : Env)
    (h : initEnv cfg gs il g l w le me ap ch = .ok e) :
    (∀ x ∈ e.wall_indices, 0 ≤ x ∧ x < (size e : Int)) ∧
    (∀ x ∈ e.lava_states, 0 ≤ x ∧ x < (size e : Int)) ∧
    (∀ x ∈ e.goal_states, -(size e : Int) ≤ x ∧ x < (size e : Int)) ∧
    (∀ x ∈ e.current_apples ++ e.current_lemons ++ e.current_melons,
      -(size e : Int) ≤ x ∧ x < (size e : Int)) := by
  simp only [initEnv] at h
  obtain ⟨_, -, h⟩ := exceptBind_ok h
  obtain ⟨_, hlava, h⟩ := exceptBind_ok h
  obtain ⟨_, hwall, h⟩ := exceptBind_ok h
  obtain ⟨e1, hgen, h⟩ := exceptBind_ok h
  obtain ⟨m1, -, h⟩ := exceptBind_ok h
  obtain ⟨m2, -, h⟩ := exceptBind_ok h
  obtain ⟨_, -, h⟩ := exceptBind_ok h
  injection h with he
  subst he
  obtain ⟨⟨m, he1, hmlen⟩, bap, blem, bmel, bgoal, -⟩ :=
    generate_reward_matrix_ok hgen
  subst he1
  have hALL := List.all_eq_true.mp (ensure_ok hwall)
  have hALLl := List.all_eq_true.mp (ensure_ok hlava)
  simp only [List.length_replicate] at bap blem bmel bgoal hmlen
  constructor
  · intro x hx
    have := of_decide_eq_true (hALL x (by simpa using hx))
    simp only [size]
    omega
  constructor
  · intro x hx
    have := of_decide_eq_true (hALLl x (by simpa using hx))
    simp only [size]
    omega
  constructor
  · intro x hx
    have := bgoal x (by simpa using hx)
    simp only [size]
    omega
  · intro x hx
    simp only [List.mem_append] at hx
    simp only [size]
    rcases hx with (hx | hx) | hx
    · have := bap x (by simpa using hx)
      omega
    · have := blem x (by simpa using hx)
      omega
    · have := bmel x (by simpa using hx)
      omega

/-- Witness for the amended C6 at a concrete successful construction with a
wall, a lava state and an apple. -/
theorem c6_success_bounds_witness :
    (∀ x ∈ ((initEnv specCfg (2, 2) [0] (some [3]) (some [2]) (some [1])
        none none (some [0]) 0).toOption.getD dummyEnv).wall_indices,
      0 ≤ x ∧ x < ((size ((initEnv specCfg (2, 2) [0] (some [3]) (some [2])
        (some [1]) none none (some [0]) 0).toOption.getD dummyEnv)) : Int)) ∧
    (∀ x ∈ ((initEnv specCfg (2, 2) [0] (some [3]) (some [2]) (some [1])
        none none (some [0]) 0).toOption.getD dummyEnv).lava_states,
      0 ≤ x ∧ x < ((size ((initEnv specCfg (2, 2) [0] (some [3]) (some [2])
        (some [1]) none none (some [0]) 0).toOption.getD dummyEnv)) : Int)) ∧
    (∀ x ∈ ((initEnv specCfg (2, 2) [0] (some [3]) (some [2]) (some [1])
        none none (some [0]) 0).toOption.getD dummyEnv).goal_states,
      -((size ((initEnv specCfg (2, 2) [0] (some [3]) (some [2]) (some [1])
        none none (some [0]) 0).toOption.getD dummyEnv)) : Int) ≤ x ∧
      x < ((size ((initEnv specCfg (2, 2) [0] (some [3]) (some [2]) (some [1])
        none none (some [0]) 0).toOption.getD dummyEnv)) : Int)) ∧
    (∀ x ∈ ((initEnv specCfg (2, 2) [0] (some [3]) (some [2]) (some [1])
        none none (some [0]) 0).toOption.getD dummyEnv).current_apples ++
        ((initEnv specCfg (2, 2) [0] (some [3]) (some [2]) (some [1])
        none none (some [0]) 0).toOption.getD dummyEnv).current_lemons ++
        ((initEnv specCfg (2, 2) [0] (some [3]) (some [2]) (some [1])
        none none (some [0]) 0).toOption.getD dummyEnv).current_melons,
      -((size ((initEnv specCfg (2, 2) [0] (some [3]) (some [2]) (some [1])
        none none (some [0]) 0).toOption.getD dummyEnv)) : Int) ≤ x ∧
      x < ((size ((initEnv specCfg (2, 2) [0] (some [3]) (some [2]) (some [1])
        none none (some [0]) 0).toOption.getD dummyEnv)) : Int)) :=
  c6_success_bounds specCfg (2, 2) [0] (some [3]) (some [2]) (some [1])
    none none (some [0]) 0
    ((initEnv specCfg (2, 2) [0] (some [3]) (some [2]) (some [1])
      none none (some [0]) 0).toOption.getD dummyEnv) (by rfl)

/-- C6 counterexample: the claim that every out-of-bounds state id raises at
construction is false: a start state 100 on a 2 by 2 grid (4 states) is
accepted because start states are never bounds checked, and a goal state -1
is accepted because the NumPy write wraps negative indices silently. -/
theorem c6_out_of_bounds_ids_accepted :
    (initEnv specCfg (2, 2) [100] none none none none none none
      100).toOption.isSome = true ∧
    (initEnv specCfg (2, 2) [0] (some [-1]) none none none none none
      0).toOption.isSome = true := by
  refine ⟨by decide, by decide⟩

/-- C7 counterexample: the integer action -1 is not one of the four discrete
directions, yet look_step_ahead performs a move with it instead of raising:
Python list indexing wraps -1 to the last closure (LEFT), so from state 1 the
agent moves to state 0. -/
theorem c7_negative_action_moves :
    ((initEnv specCfg (2, 2) [0] none none none none none none
        0).toOption.bind
      (fun e => (look_step_ahead e 1 (-1) true).map (fun p => p.2.1))) =
      some 0 ∧
    ¬((-1 : Int) = 0 ∨ (-1 : Int) = 1 ∨ (-1 : Int) = 2 ∨ (-1 : Int) = 3) := by
  refine ⟨by decide, by decide⟩

/-- C7 amended: only integer actions outside the Python index range
[-4, 3] of the 4-element action list make look_step_ahead raise, and only
when the action list is actually indexed (the state is not terminal, or
care_about_terminal is false); actions in [-4, -1] wrap Python-style and
perform a move (counterexample theorem), and with care_about_terminal true a
terminal state returns without touching the action at all (claim C2). -/
theorem c7_out_of_range_action_raises (e : Env) (s a : Int)
    (ha : a < -4 ∨ 4 ≤ a) (ht : is_terminal e s = false) :
    look_step_ahead e s a true = none ∧ look_step_ahead e s a false = none := by
  have hp : pyIndex 4 a = none := by
    unfold pyIndex
    rw [if_neg (by omega), if_neg (by omega)]
  constructor <;> simp [look_step_ahead, ht, hp]

/-- Witness for the amended C7 at a concrete environment and action 4. -/
theorem c7_out_of_range_action_raises_witness :
    (((4 : Int) < -4 ∨ 4 ≤ (4 : Int)) ∧ is_terminal dummyEnv 0 = false) ∧
    (look_step_ahead dummyEnv 0 4 true = none ∧
     look_step_ahead dummyEnv 0 4 false = none) :=
  ⟨⟨Or.inr (by decide), by decide⟩,
   c7_out_of_range_action_raises dummyEnv 0 4 (Or.inr (by decide)) (by decide)⟩

/-- C8 amended: stepping after termination (current state terminal, done
set, no fruit on the terminal state, the state a valid matrix index) is not
an error for any action value, and leaves current_state, done, the reward
matrix and the fruit sets unchanged; but it does set previous_state to the
terminal current state and appends the terminal state's coordinates to the
visited-coordinates history (evicting the oldest entry when over
capacity). -/
theorem c8_step_after_termination (e : Env) (a : Int)
    (hterm : is_terminal e e.current_state = true)
    (hdone : e.done = true)
    (hm : 0 ≤ e.current_state ∧
      e.current_state < (e.reward_matrix.length : Int))
    (hfruit : e.current_state ∉ e.current_lemons ∧
      e.current_state ∉ e.current_apples ∧
      e.current_state ∉ e.current_melons) :
    ∃ r, step e a = some
      ({ e with previous_state := e.current_state,
                last_n_states :=
                  if (e.last_n_states ++ [worldAt e e.current_state]).length >
                      num_previous_states_to_store
                  then (e.last_n_states ++ [worldAt e e.current_state]).drop 1
                  else e.last_n_states ++ [worldAt e e.current_state] },
        e.current_state, r, true) := by
  have hp := pyIndex_nonneg hm.1 hm.2
  have hr : reward_function e e.current_state true =
      some (e, e.reward_matrix.getD e.current_state.toNat 0) := by
    simp [reward_function, hp, hfruit.1, hfruit.2.1, hfruit.2.2]
  refine ⟨e.reward_matrix.getD e.current_state.toNat 0, ?_⟩
  simp only [step, look_step_ahead, hterm, if_pos rfl, hr, Option.map_some]
  cases e
  simp_all

/-- Witness for the amended C8 at the concrete terminated environment. -/
theorem c8_step_after_termination_witness :
    ∃ r, step termEnv 7 = some
      ({ termEnv with previous_state := termEnv.current_state,
                      last_n_states :=
                        if (termEnv.last_n_states ++
                            [worldAt termEnv termEnv.current_state]).length >
                            num_previous_states_to_store
                        then (termEnv.last_n_states ++
                            [worldAt termEnv termEnv.current_state]).drop 1
                        else termEnv.last_n_states ++
                            [worldAt termEnv termEnv.current_state] },
        termEnv.current_state, r, true) :=
  c8_step_after_termination termEnv 7 (by decide) (by decide) (by decide)
    ⟨by decide, by decide, by decide⟩

/-- C8 counterexample: after the episode on a 2 by 2 grid terminates at goal
state 3 (previous state 1, history [(1,0),(1,1)]), one further step is not an
error but does change state: previous_state becomes 3 and the terminal
state's coordinates are appended to the visited history, contradicting the
claim that nothing changes. -/
theorem c8_step_after_termination_mutates :
    ((initEnv specCfg (2, 2) [0] none none none none none none
        0).toOption.bind
      (fun e => (step e 1).bind (fun p => step p.1 2))).map
      (fun p => (p.1.previous_state, p.1.done, p.1.last_n_states)) =
      some (1, true, [(1, 0), (1, 1)]) ∧
    ((initEnv specCfg (2, 2) [0] none none none none none none
        0).toOption.bind
      (fun e => (step e 1).bind (fun p => (step p.1 2).bind
        (fun q => step q.1 0)))).map
      (fun p => (p.1.previous_state, p.1.done, p.1.last_n_states)) =
      some (3, true, [(1, 0), (1, 1), (1, 1)]) := by
  refine ⟨by decide, by decide⟩

/-- C10: with care_about_terminal false the terminal short-circuit is
skipped: for every state (terminal or not) and every direction action, the
result is exactly the directional move with wall cancellation applied to the
state, the mutating fruit collection (reward_function with collect) on the
resulting state, and done reported as the terminality of the resulting
state. -/
theorem c10_no_care_skips_terminal_shortcircuit (e : Env) (s a : Int)
    (ha : 0 ≤ a ∧ a < 4) :
    look_step_ahead e s a false =
      (reward_function e
        (if is_wall e (action_state_to_next_state e a.toNat s) then s
         else action_state_to_next_state e a.toNat s) true).map
        (fun p => (p.1,
          (if is_wall e (action_state_to_next_state e a.toNat s) then s
           else action_state_to_next_state e a.toNat s), p.2,
          is_terminal p.1
            (if is_wall e (action_state_to_next_state e a.toNat s) then s
             else action_state_to_next_state e a.toNat s))) := by
  have hp : pyIndex 4 a = some a.toNat :=
    pyIndex_nonneg ha.1 (by exact_mod_cast ha.2)
  simp only [look_step_ahead, Bool.false_eq_true, if_false, hp]

/-- Witness for C10: from the terminal state 3 of the 2 by 2 environment,
action up with care_about_terminal false moves the agent out to state 1. -/
theorem c10_no_care_skips_terminal_shortcircuit_witness :
    (is_terminal termEnv 3 = true ∧
     look_step_ahead termEnv 3 0 false = some (termEnv, 1, -1, false) ∧
     (1 : Int) ≠ 3) ∧
    look_step_ahead termEnv 3 0 false =
      (reward_function termEnv
        (if is_wall termEnv (action_state_to_next_state termEnv (0 : Int).toNat 3)
         then 3 else action_state_to_next_state termEnv (0 : Int).toNat 3)
        true).map
        (fun p => (p.1,
          (if is_wall termEnv (action_state_to_next_state termEnv (0 : Int).toNat 3)
           then 3 else action_state_to_next_state termEnv (0 : Int).toNat 3),
          p.2,
          is_terminal p.1
            (if is_wall termEnv (action_state_to_next_state termEnv (0 : Int).toNat 3)
             then 3 else action_state_to_next_state termEnv (0 : Int).toNat 3))) :=
  ⟨⟨by decide, by decide, by decide⟩,
   c10_no_care_skips_terminal_shortcircuit termEnv 3 0 ⟨by decide, by decide⟩⟩

/-- C9: a successful text load certifies that the rows were non-empty, of
equal length, over the legal alphabet, with at least one start and one goal
marker (so each violation is a raised format error), and produces the
dimensions (row count, row length) with the start and goal state sets equal
to the row-major read-order marker positions. -/
theorem c9_loader_rowmajor (e : Env) (lines : List String) (chosen : Int)
    (e2 : Env) (h : create_custom_world_from_text e lines chosen = .ok e2) :
    lines ≠ [] ∧
    (∀ l ∈ lines, l.length = (lines.headD "").length) ∧
    (∀ l ∈ lines, ∀ c ∈ l.toList, legalChar c = true) ∧
    e2.initial_states ≠ [] ∧ e2.goal_states ≠ [] ∧
    e2.x_max = (lines.headD "").length ∧
    e2.y_max = lines.length ∧
    e2.initial_states = gridMarks 'x' 0 (lines.map String.toList) ∧
    e2.goal_states = gridMarks 'G' 0 (lines.map String.toList) := by
  simp only [create_custom_world_from_text] at h
  obtain ⟨_, hne, h⟩ := exceptBind_ok h
  obtain ⟨p, hparse, h⟩ := exceptBind_ok h
  obtain ⟨_, hinits, h⟩ := exceptBind_ok h
  obtain ⟨_, hgoals, h⟩ := exceptBind_ok h
  obtain ⟨_, -, h⟩ := exceptBind_ok h
  simp only [reset] at h
  obtain ⟨⟨m, he2, -⟩, -⟩ := generate_reward_matrix_ok h
  subst he2
  have hne' : lines ≠ [] := of_decide_eq_true (ensure_ok hne)
  obtain ⟨hwid, hleg, hgoal, hinit⟩ := parseLines_ok hparse
  have hinits' : p.1.initial_states ≠ [] := of_decide_eq_true (ensure_ok hinits)
  have hgoals' : p.1.goal_states ≠ [] := of_decide_eq_true (ensure_ok hgoals)
  simp only [emptyAcc, List.nil_append] at hgoal hinit
  refine ⟨hne', ?_, ?_, ?_, ?_, ?_, ?_, ?_, ?_⟩
  · intro l hl
    have := hwid l.toList (List.mem_map_of_mem _ hl)
    simpa using this
  · intro l hl c hc
    exact hleg l.toList (List.mem_map_of_mem _ hl) c hc
  · simpa [hinit] using hinits'
  · simpa [hgoal] using hgoals'
  · simp
  · simp
  · simpa using hinit
  · simpa using hgoal

/-- Witness for C9: loading the rows xo and oG succeeds and produces a 2 by
2 world whose start set is the row-major position list [0] and whose goal
set is [3]. -/
theorem c9_loader_rowmajor_witness :
    ((["xo", "oG"] : List String) ≠ [] ∧
     (∀ l ∈ (["xo", "oG"] : List String),
       l.length = ((["xo", "oG"] : List String).headD "").length) ∧
     (∀ l ∈ (["xo", "oG"] : List String), ∀ c ∈ l.toList, legalChar c = true) ∧
     ((create_custom_world_from_text dummyEnv ["xo", "oG"] 0).toOption.getD
       dummyEnv).initial_states ≠ [] ∧
     ((create_custom_world_from_text dummyEnv ["xo", "oG"] 0).toOption.getD
       dummyEnv).goal_states ≠ [] ∧
     ((create_custom_world_from_text dummyEnv ["xo", "oG"] 0).toOption.getD
       dummyEnv).x_max = ((["xo", "oG"] : List String).headD "").length ∧
     ((create_custom_world_from_text dummyEnv ["xo", "oG"] 0).toOption.getD
       dummyEnv).y_max = (["xo", "oG"] : List String).length ∧
     ((create_custom_world_from_text dummyEnv ["xo", "oG"] 0).toOption.getD
       dummyEnv).initial_states =
       gridMarks 'x' 0 ((["xo", "oG"] : List String).map String.toList) ∧
     ((create_custom_world_from_text dummyEnv ["xo", "oG"] 0).toOption.getD
       dummyEnv).goal_states =
       gridMarks 'G' 0 ((["xo", "oG"] : List String).map String.toList)) ∧
    gridMarks 'x' 0 ((["xo", "oG"] : List String).map String.toList) = [0] ∧
    gridMarks 'G' 0 ((["xo", "oG"] : List String).map String.toList) = [3] :=
  ⟨c9_loader_rowmajor dummyEnv ["xo", "oG"] 0
    ((create_custom_world_from_text dummyEnv ["xo", "oG"] 0).toOption.getD
      dummyEnv) (by rfl),
   by decide, by decide⟩

end Claims

end GridUniverse
